import Mathlib

/-!
Verification of the SeaBuddy backend sync core (`POST /api/sync` and
`GET /api/sync/status` in the backend sync router) against its
specification.

Shallow embedding conventions:
* timestamps are `Nat` (milliseconds since epoch); an absent JSON key is
  `Option.none`;
* tenant ids, user ids and row ids are `Nat`; moods are `String`;
* the relational store is a `List` of rows per table; a drizzle
  `findFirst` is `List.find?`, an `update ... where` maps over the rows
  matching the where clause, an `insert` appends;
* a NOT NULL column without default makes the insert fallible
  (`Except String`), matching a postgres constraint violation being
  thrown to the route handler;
* the JS comparison `new Date(x) > new Date(y)` on an invalid date is
  always false, so the effective client timestamp is an `Option Nat` and
  `none` never wins.
-/

namespace SeaBuddy

/-- JavaScript object-spread semantics for a nullable column in an
update `set`: a key present in the payload overwrites the stored value,
an absent key keeps it (the update only sets the keys occurring in the
spread object). -/
def overlay {α : Type} (p : Option α) (stored : Option α) : Option α :=
  match p with
  | some v => some v
  | none => stored

/-- A stored `mood_logs` row (table `moodLogs` in `db/schema.ts`):
`mood`, `clientCreatedAt`, `createdAt`, `updatedAt`, `isDeleted` are NOT
NULL; `intensity`, `notes`, `syncedAt` are nullable. -/
structure MoodLogRow where
  id : Nat
  tenantId : Nat
  userId : Nat
  mood : String
  intensity : Option Int
  notes : Option String
  clientCreatedAt : Nat
  createdAt : Nat
  updatedAt : Nat
  syncedAt : Option Nat
  isDeleted : Bool
deriving Repr, DecidableEq

/-- A pushed mood-log change as it arrives in
`changes.moodLogs` of the sync request body: an untyped JSON object, so
every field other than `id` may be absent. The `tenantId`, `userId` and
`syncedAt` keys can be sent by a client but are always overwritten by
the handler after the spread. -/
structure MoodLogChange where
  id : Nat
  tenantId : Option Nat := none
  userId : Option Nat := none
  mood : Option String := none
  intensity : Option Int := none
  notes : Option String := none
  clientCreatedAt : Option Nat := none
  createdAt : Option Nat := none
  updatedAt : Option Nat := none
  syncedAt : Option Nat := none
  isDeleted : Option Bool := none
deriving Repr, DecidableEq

/-- `new Date(log.updatedAt || log.clientCreatedAt)`: the effective
client timestamp used for last-write-wins. `none` models an invalid
date (both keys absent); every JS comparison on an invalid date is
false. -/
def clientUpdatedAt (c : MoodLogChange) : Option Nat :=
  match c.updatedAt with
  | some u => some u
  | none => c.clientCreatedAt

/-- The drizzle `set` object of the mood-log update branch:
`{...log, tenantId, userId, syncedAt: new Date(), updatedAt: new Date()}`.
The payload spread reaches every column whose key is present; the four
explicit keys written after the spread win over it. -/
def applyMoodSet (tenantId userId now : Nat) (c : MoodLogChange)
    (r : MoodLogRow) : MoodLogRow :=
  { id := c.id,
    tenantId := tenantId,
    userId := userId,
    mood := c.mood.getD r.mood,
    intensity := overlay c.intensity r.intensity,
    notes := overlay c.notes r.notes,
    clientCreatedAt := c.clientCreatedAt.getD r.clientCreatedAt,
    createdAt := c.createdAt.getD r.createdAt,
    updatedAt := now,
    syncedAt := some now,
    isDeleted := c.isDeleted.getD r.isDeleted }

/-- The mood-log insert branch:
`db.insert(moodLogs).values({...log, tenantId, userId, syncedAt: new Date()})`.
`mood` and `clientCreatedAt` are NOT NULL without default, so their
absence makes the statement fail; `createdAt`, `updatedAt` default to
`now()` and `isDeleted` to false when the spread does not provide
them. -/
def insertMoodLog (tenantId userId now : Nat) (c : MoodLogChange) :
    Except String MoodLogRow :=
  match c.mood, c.clientCreatedAt with
  | some m, some cc =>
      Except.ok
        { id := c.id,
          tenantId := tenantId,
          userId := userId,
          mood := m,
          intensity := c.intensity,
          notes := c.notes,
          clientCreatedAt := cc,
          createdAt := c.createdAt.getD now,
          updatedAt := c.updatedAt.getD now,
          syncedAt := some now,
          isDeleted := c.isDeleted.getD false }
  | _, _ => Except.error "null value in NOT NULL column"

/-- One iteration of the mood-log push loop of the sync handler:
`findFirst({where: eq(moodLogs.id, log.id)})` (note: the lookup binds
only the id, not the tenant), then last-write-wins update or insert.
The update `where` clause likewise binds only the id. -/
def applyMoodLogChange (tenantId userId now : Nat) (st : List MoodLogRow)
    (c : MoodLogChange) : Except String (List MoodLogRow) :=
  match st.find? (fun r => r.id == c.id) with
  | some existing =>
      match clientUpdatedAt c with
      | some d =>
          if existing.updatedAt < d then
            Except.ok (st.map (fun r =>
              if r.id == c.id then applyMoodSet tenantId userId now c r else r))
          else
            Except.ok st
      | none => Except.ok st
  | none =>
      match insertMoodLog tenantId userId now c with
      | Except.ok row => Except.ok (st ++ [row])
      | Except.error e => Except.error e

/-- The `for (const log of changes.moodLogs)` loop, run with no
enclosing transaction: each await mutates the store immediately, and a
thrown store error aborts the handler while the mutations already
applied stay persisted. The result is the store after the loop together
with the error that aborted it, if one did. -/
def pushMoodLogs (tenantId userId now : Nat) (st : List MoodLogRow) :
    List MoodLogChange → List MoodLogRow × Option String
  | [] => (st, none)
  | c :: rest =>
      match applyMoodLogChange tenantId userId now st c with
      | Except.ok st2 => pushMoodLogs tenantId userId now st2 rest
      | Except.error e => (st, some e)

/-- A stored row used for the stale-push theorem witness. -/
def c3row : MoodLogRow :=
  { id := 1, tenantId := 1, userId := 1, mood := "good", intensity := none,
    notes := none, clientCreatedAt := 100, createdAt := 120, updatedAt := 200,
    syncedAt := some 200, isDeleted := false }

/-- A re-push of row 1 carrying a strictly earlier `updatedAt`. -/
def c3chg : MoodLogChange :=
  { id := 1, mood := some "bad", clientCreatedAt := some 100,
    updatedAt := some 150 }

/-- Claim C3: when a pushed change matches an existing row and its
effective client timestamp (`payload.updatedAt` if present, else
`payload.clientCreatedAt`) is not strictly greater than the stored
`updatedAt`, the store is left unchanged and the payload is silently
discarded. -/
theorem moodlog_stale_push_discarded (tenantId userId now : Nat)
    (st : List MoodLogRow) (c : MoodLogChange) (existing : MoodLogRow)
    (hfind : st.find? (fun r => r.id == c.id) = some existing)
    (hstale : ∀ d, clientUpdatedAt c = some d → ¬ existing.updatedAt < d) :
    applyMoodLogChange tenantId userId now st c = Except.ok st := by
  unfold applyMoodLogChange
  rw [hfind]
  cases h : clientUpdatedAt c with
  | none => rfl
  | some d => simp [hstale d h]

/-- Witness for C3: a concrete stale push (stored `updatedAt` 200,
client timestamp 150) leaves the concrete store unchanged. -/
theorem moodlog_stale_push_discarded_witness :
    applyMoodLogChange 5 5 300 [c3row] c3chg = Except.ok [c3row] :=
  moodlog_stale_push_discarded 5 5 300 [c3row] c3chg c3row rfl
    (by intro d hd; simp [clientUpdatedAt, c3chg] at hd; subst hd; decide)

/-- A mood-log row owned by tenant 1 / user 11, used to probe what a
push from tenant 2 does to it. -/
def c1row : MoodLogRow :=
  { id := 7, tenantId := 1, userId := 11, mood := "good", intensity := none,
    notes := none, clientCreatedAt := 50, createdAt := 60, updatedAt := 60,
    syncedAt := some 60, isDeleted := false }

/-- A push from another tenant reusing id 7 with a far-future
timestamp. -/
def c1chg : MoodLogChange :=
  { id := 7, mood := some "terrible", clientCreatedAt := some 900,
    updatedAt := some 1000 }

/-- Claim C1 (code evaluated at the failing input): a sync push by
tenant 2 / user 22 of a change whose id names a row stored under tenant
1 does NOT see a not-found lookup: the id-only `findFirst` returns the
other tenant row, the last-write-wins update fires, and the single
stored row is rewritten in place with `tenantId` reassigned to the
caller — no distinct insert happens and the tenant-1 row does not
survive unchanged. -/
theorem sync_push_cross_tenant_hijack :
    [c1row].find? (fun r => r.id == c1chg.id) = some c1row ∧
    applyMoodLogChange 2 22 70 [c1row] c1chg =
      Except.ok [{ id := 7, tenantId := 2, userId := 22, mood := "terrible",
                   intensity := none, notes := none, clientCreatedAt := 900,
                   createdAt := 60, updatedAt := 70, syncedAt := some 70,
                   isDeleted := false }] :=
  ⟨rfl, rfl⟩

/-- A valid insert followed in the same batch by an insert that
violates the NOT NULL constraint on `client_created_at`. -/
def c4good : MoodLogChange :=
  { id := 21, mood := some "okay", clientCreatedAt := some 40 }

/-- A change lacking `clientCreatedAt`, so its insert throws. -/
def c4bad : MoodLogChange := { id := 22, mood := some "good" }

/-- Claim C4 (code evaluated at the failing input): the push loop runs
with no transaction, so when the second insert of a two-change batch
throws, the handler aborts but the first insert stays persisted — the
pre-call store (empty) is not restored. -/
theorem sync_push_partial_work_persisted :
    pushMoodLogs 1 1 90 [] [c4good, c4bad] =
      ([{ id := 21, tenantId := 1, userId := 1, mood := "okay",
          intensity := none, notes := none, clientCreatedAt := 40,
          createdAt := 90, updatedAt := 90, syncedAt := some 90,
          isDeleted := false }], some "null value in NOT NULL column") ∧
    (pushMoodLogs 1 1 90 [] [c4good, c4bad]).1 ≠ [] :=
  ⟨rfl, by decide⟩

/-- An invalid change (no `clientCreatedAt`) placed first in a batch. -/
def c7bad : MoodLogChange := { id := 31, mood := some "good" }

/-- A fully valid change placed after the invalid one. -/
def c7good : MoodLogChange :=
  { id := 32, mood := some "great", clientCreatedAt := some 45 }

/-- Counterexample to claim C7: a batch whose first change lacks
`client_created_at` aborts at that change; the valid change behind it
is never processed (its row is absent from the final store), whereas
the claim says only the invalid change is rejected and the rest still
apply. -/
theorem batch_validation_counterexample :
    pushMoodLogs 1 1 80 [] [c7bad, c7good] =
      ([], some "null value in NOT NULL column") ∧
    ¬ ∃ r ∈ (pushMoodLogs 1 1 80 [] [c7bad, c7good]).1, r.id = 32 :=
  ⟨rfl, by decide⟩

/-- Claim C7 as amended: there is no per-change validation; a change
lacking `client_created_at` that routes to insert makes the store
insert throw and aborts the whole batch, so the remaining changes are
not processed and the store keeps exactly the changes applied before
it. -/
theorem invalid_insert_aborts_batch (tenantId userId now : Nat)
    (st : List MoodLogRow) (c : MoodLogChange) (rest : List MoodLogChange)
    (hnew : st.find? (fun r => r.id == c.id) = none)
    (hmiss : c.clientCreatedAt = none) :
    pushMoodLogs tenantId userId now st (c :: rest) =
      (st, some "null value in NOT NULL column") := by
  simp only [pushMoodLogs, applyMoodLogChange, insertMoodLog, hnew, hmiss]
  cases c.mood <;> rfl

/-- Witness for the amended C7: the concrete aborting batch. -/
theorem invalid_insert_aborts_batch_witness :
    pushMoodLogs 1 1 80 [] [c7bad, c7good] =
      ([], some "null value in NOT NULL column") :=
  invalid_insert_aborts_batch 1 1 80 [] c7bad [c7good] rfl rfl

/-- A new-row push whose payload smuggles `createdAt` and `updatedAt`
values that differ from the server clock (now = 10). -/
def c5chg : MoodLogChange :=
  { id := 41, mood := some "good", clientCreatedAt := some 30,
    createdAt := some 7, updatedAt := some 999 }

/-- Counterexample to claim C5: the insert branch spreads the payload
and sets only `syncedAt`, so a payload carrying `createdAt = 7` and
`updatedAt = 999` is inserted with exactly those values although the
server clock is 10; the claim says all three stamps equal server now. -/
theorem insert_timestamp_stamping_counterexample :
    applyMoodLogChange 1 1 10 [] c5chg =
      Except.ok [{ id := 41, tenantId := 1, userId := 1, mood := "good",
                   intensity := none, notes := none, clientCreatedAt := 30,
                   createdAt := 7, updatedAt := 999, syncedAt := some 10,
                   isDeleted := false }] ∧
    (7 : Nat) ≠ 10 ∧ (999 : Nat) ≠ 10 :=
  ⟨rfl, by decide, by decide⟩

/-- Claim C5 as amended: a change inserted as new gets `synced_at`
equal to server now, while `created_at` and `updated_at` take the
payload values when the payload carries them and default to server now
only when it does not; `tenant_id` and `user_id` are forced to the
caller. -/
theorem insert_row_characterization (tenantId userId now : Nat)
    (st : List MoodLogRow) (c : MoodLogChange) (m : String) (cc : Nat)
    (hnew : st.find? (fun r => r.id == c.id) = none)
    (hmood : c.mood = some m) (hcca : c.clientCreatedAt = some cc) :
    applyMoodLogChange tenantId userId now st c =
      Except.ok (st ++ [{ id := c.id, tenantId := tenantId,
                          userId := userId, mood := m, intensity := c.intensity,
                          notes := c.notes, clientCreatedAt := cc,
                          createdAt := c.createdAt.getD now,
                          updatedAt := c.updatedAt.getD now, syncedAt := some now,
                          isDeleted := c.isDeleted.getD false }]) := by
  simp [applyMoodLogChange, insertMoodLog, hnew, hmood, hcca]

/-- Witness for the amended C5: the concrete insert at server clock 10
keeps the payload timestamps 7 and 999 and stamps `syncedAt` with 10. -/
theorem insert_row_characterization_witness :
    applyMoodLogChange 1 1 10 [] c5chg =
      Except.ok [{ id := 41, tenantId := 1, userId := 1, mood := "good",
                   intensity := none, notes := none, clientCreatedAt := 30,
                   createdAt := 7, updatedAt := 999, syncedAt := some 10,
                   isDeleted := false }] :=
  insert_row_characterization 1 1 10 [] c5chg "good" 30 rfl rfl rfl

/-- A stored row whose immutable-by-spec fields are about to be
overwritten by an update push. -/
def c9row : MoodLogRow :=
  { id := 51, tenantId := 1, userId := 1, mood := "okay", intensity := none,
    notes := none, clientCreatedAt := 100, createdAt := 110, updatedAt := 120,
    syncedAt := some 120, isDeleted := false }

/-- An update push carrying different `clientCreatedAt` and `createdAt`
values for row 51. -/
def c9chg : MoodLogChange :=
  { id := 51, mood := some "bad", clientCreatedAt := some 999,
    createdAt := some 777, updatedAt := some 1000 }

/-- Counterexample to claim C9: the update branch spreads the full
payload into `set`, so a payload carrying `clientCreatedAt = 999` and
`createdAt = 777` overwrites the stored values 100 and 110 — the claim
says both fields are ignored on update. -/
theorem update_frame_counterexample :
    applyMoodLogChange 1 1 130 [c9row] c9chg =
      Except.ok [{ id := 51, tenantId := 1, userId := 1, mood := "bad",
                   intensity := none, notes := none, clientCreatedAt := 999,
                   createdAt := 777, updatedAt := 130, syncedAt := some 130,
                   isDeleted := false }] ∧
    c9row.clientCreatedAt = 100 ∧ (999 : Nat) ≠ 100 ∧
    c9row.createdAt = 110 ∧ (777 : Nat) ≠ 110 :=
  ⟨rfl, rfl, by decide, rfl, by decide⟩

/-- Claim C9 as amended: when an update push applies, `id` is
unchanged, `tenant_id` and `user_id` are forced to the caller values
regardless of payload or stored content, while `client_created_at` and
`created_at` take the payload values when present and keep the stored
values only when the payload omits them. -/
theorem update_row_characterization (tenantId userId now : Nat)
    (st : List MoodLogRow) (c : MoodLogChange) (existing : MoodLogRow) (d : Nat)
    (hfind : st.find? (fun r => r.id == c.id) = some existing)
    (hd : clientUpdatedAt c = some d) (hnewer : existing.updatedAt < d) :
    applyMoodLogChange tenantId userId now st c =
      Except.ok (st.map (fun r =>
        if r.id == c.id then applyMoodSet tenantId userId now c r else r)) ∧
    ∀ r : MoodLogRow,
      (applyMoodSet tenantId userId now c r).id = c.id ∧
      (applyMoodSet tenantId userId now c r).tenantId = tenantId ∧
      (applyMoodSet tenantId userId now c r).userId = userId ∧
      (applyMoodSet tenantId userId now c r).clientCreatedAt =
        c.clientCreatedAt.getD r.clientCreatedAt ∧
      (applyMoodSet tenantId userId now c r).createdAt =
        c.createdAt.getD r.createdAt := by
  refine ⟨?_, fun r => ⟨rfl, rfl, rfl, rfl, rfl⟩⟩
  simp [applyMoodLogChange, hfind, hd, hnewer]

/-- Witness for the amended C9: the concrete applying update. -/
theorem update_row_characterization_witness :
    applyMoodLogChange 1 1 130 [c9row] c9chg =
      Except.ok ([c9row].map (fun r =>
        if r.id == c9chg.id then applyMoodSet 1 1 130 c9chg r else r)) ∧
    ∀ r : MoodLogRow,
      (applyMoodSet 1 1 130 c9chg r).id = c9chg.id ∧
      (applyMoodSet 1 1 130 c9chg r).tenantId = 1 ∧
      (applyMoodSet 1 1 130 c9chg r).userId = 1 ∧
      (applyMoodSet 1 1 130 c9chg r).clientCreatedAt =
        c9chg.clientCreatedAt.getD r.clientCreatedAt ∧
      (applyMoodSet 1 1 130 c9chg r).createdAt =
        c9chg.createdAt.getD r.createdAt :=
  update_row_characterization 1 1 130 [c9row] c9chg c9row 1000 rfl rfl
    (by decide)

/-- Sequencing a successful store step. -/
theorem except_bind_ok {ε α β : Type} (a : α) (f : α → Except ε β) :
    (Except.ok (ε := ε) a).bind f = f a := rfl

/-- Overlaying the same payload key twice equals overlaying it once. -/
theorem overlay_idem {α : Type} (o p : Option α) :
    overlay o (overlay o p) = overlay o p := by
  cases o <;> rfl

/-- Overlaying a value over itself changes nothing. -/
theorem overlay_self {α : Type} (o : Option α) : overlay o o = o := by
  cases o <;> rfl

/-- Defaulting twice through the same optional payload key. -/
theorem getD_idem {α : Type} (o : Option α) (x : α) :
    o.getD (o.getD x) = o.getD x := by
  cases o <;> rfl

/-- Applying the update `set` object twice at the same server clock is
the same as applying it once. -/
theorem applyMoodSet_idem (tenantId userId now : Nat) (c : MoodLogChange)
    (r : MoodLogRow) :
    applyMoodSet tenantId userId now c
        (applyMoodSet tenantId userId now c r) =
      applyMoodSet tenantId userId now c r := by
  simp [applyMoodSet, overlay_idem, getD_idem]

/-- The id-scoped lookup commutes with the id-scoped update map. -/
theorem find?_update_map (tenantId userId now : Nat) (c : MoodLogChange)
    (st : List MoodLogRow) :
    (st.map (fun r =>
        if r.id == c.id then applyMoodSet tenantId userId now c r
        else r)).find? (fun r => r.id == c.id) =
      (st.find? (fun r => r.id == c.id)).map (fun r =>
        if r.id == c.id then applyMoodSet tenantId userId now c r else r) := by
  induction st with
  | nil => rfl
  | cons a l ih =>
    cases ha : a.id == c.id with
    | true =>
      simp only [List.map_cons, if_pos ha]
      rw [List.find?_cons_of_pos _ (by simp [applyMoodSet]),
        List.find?_cons_of_pos (p := fun r : MoodLogRow => r.id == c.id) _ ha]
      simp [show a.id = c.id from by simpa using ha]
    | false =>
      have hna : ¬ ((a.id == c.id) = true) := by simp [ha]
      simp only [List.map_cons, if_neg hna]
      rw [List.find?_cons_of_neg (p := fun r : MoodLogRow => r.id == c.id) _ hna,
        List.find?_cons_of_neg (p := fun r : MoodLogRow => r.id == c.id) _ hna, ih]

/-- A lookup that fails on the first list continues in the second. -/
theorem find?_append_of_none {α : Type} (p : α → Bool) (l1 l2 : List α)
    (h : l1.find? p = none) : (l1 ++ l2).find? p = l2.find? p := by
  induction l1 with
  | nil => rfl
  | cons a l ih =>
    rw [List.cons_append]
    cases hp : p a with
    | false =>
      simp only [List.find?, hp] at h ⊢
      exact ih h
    | true =>
      simp only [List.find?, hp] at h
      exact Option.noConfusion h

/-- Characterization of a successful insert. -/
theorem insertMoodLog_ok (tenantId userId now : Nat) (c : MoodLogChange)
    (row : MoodLogRow)
    (h : insertMoodLog tenantId userId now c = Except.ok row) :
    ∃ m cc, c.mood = some m ∧ c.clientCreatedAt = some cc ∧
      row = { id := c.id, tenantId := tenantId, userId := userId, mood := m,
              intensity := c.intensity, notes := c.notes,
              clientCreatedAt := cc, createdAt := c.createdAt.getD now,
              updatedAt := c.updatedAt.getD now, syncedAt := some now,
              isDeleted := c.isDeleted.getD false } := by
  unfold insertMoodLog at h
  cases hm : c.mood with
  | none =>
    rw [hm] at h
    cases hc : c.clientCreatedAt <;> rw [hc] at h <;> cases h
  | some m =>
    cases hc : c.clientCreatedAt with
    | none => rw [hm, hc] at h; cases h
    | some cc =>
      rw [hm, hc] at h
      injection h with h
      exact ⟨m, cc, rfl, rfl, h.symm⟩

/-- Claim C8 as amended: at a fixed server clock, re-applying the same
push is a no-op — the retried change either loses the last-write-wins
comparison or rewrites the row to the identical value, and an insert
retry routes to update; so the store after two applications equals the
store after one. (The original claim, quantifying over retries at later
server clocks, fails: see the counterexample.) -/
theorem push_idempotent_at_fixed_now (tenantId userId now : Nat)
    (st : List MoodLogRow) (c : MoodLogChange) :
    (applyMoodLogChange tenantId userId now st c).bind
      (fun st2 => applyMoodLogChange tenantId userId now st2 c) =
    applyMoodLogChange tenantId userId now st c := by
  cases hfind : st.find? (fun r => r.id == c.id) with
  | some existing =>
    cases hd : clientUpdatedAt c with
    | none =>
      have h1 : applyMoodLogChange tenantId userId now st c = Except.ok st := by
        unfold applyMoodLogChange; rw [hfind, hd]
      rw [h1, except_bind_ok]
      exact h1
    | some d =>
      by_cases hlt : existing.updatedAt < d
      · have h1 : applyMoodLogChange tenantId userId now st c =
            Except.ok (st.map (fun r =>
              if r.id == c.id then applyMoodSet tenantId userId now c r
              else r)) := by
          unfold applyMoodLogChange; rw [hfind, hd]; simp [hlt]
        rw [h1, except_bind_ok]
        have hex : existing.id = c.id := by
          have h := List.find?_some hfind
          simpa using h
        have h2 : (st.map (fun r =>
            if r.id == c.id then applyMoodSet tenantId userId now c r
            else r)).find? (fun r => r.id == c.id) =
            some (applyMoodSet tenantId userId now c existing) := by
          rw [find?_update_map, hfind]
          simp [hex]
        unfold applyMoodLogChange
        rw [h2, hd]
        by_cases h2lt :
            (applyMoodSet tenantId userId now c existing).updatedAt < d
        · simp only [if_pos h2lt]
          congr 1
          rw [List.map_map]
          apply List.map_congr_left
          intro r _
          by_cases hr : r.id = c.id
          · simp [Function.comp, hr, applyMoodSet_idem]
          · simp [Function.comp, hr]
        · simp only [if_neg h2lt]
      · have h1 : applyMoodLogChange tenantId userId now st c =
            Except.ok st := by
          unfold applyMoodLogChange; rw [hfind, hd]; simp [hlt]
        rw [h1, except_bind_ok]
        exact h1
  | none =>
    cases hins : insertMoodLog tenantId userId now c with
    | error e =>
      have h1 : applyMoodLogChange tenantId userId now st c =
          Except.error e := by
        unfold applyMoodLogChange; rw [hfind, hins]
      rw [h1]
      rfl
    | ok row =>
      have h1 : applyMoodLogChange tenantId userId now st c =
          Except.ok (st ++ [row]) := by
        unfold applyMoodLogChange; rw [hfind, hins]
      rw [h1, except_bind_ok]
      obtain ⟨m, cc, hm, hcc, hrow⟩ :=
        insertMoodLog_ok tenantId userId now c row hins
      have hrid : (row.id == c.id) = true := by rw [hrow]; simp
      have h2 : (st ++ [row]).find? (fun r => r.id == c.id) = some row := by
        rw [find?_append_of_none _ _ _ hfind]
        simp [List.find?, hrid]
      cases hu : c.updatedAt with
      | some u =>
        have hcu : clientUpdatedAt c = some u := by
          unfold clientUpdatedAt; rw [hu]
        have hru : row.updatedAt = u := by rw [hrow]; simp [hu]
        unfold applyMoodLogChange
        rw [h2, hcu]
        simp [hru]
      | none =>
        have hcu : clientUpdatedAt c = some cc := by
          unfold clientUpdatedAt; rw [hu, hcc]
        have hru : row.updatedAt = now := by rw [hrow]; simp [hu]
        by_cases hnc : now < cc
        · have hall := List.find?_eq_none.mp hfind
          have hstmap : st.map (fun r =>
              if r.id == c.id then applyMoodSet tenantId userId now c r
              else r) = st := by
            rw [show st.map (fun r =>
                if r.id == c.id then applyMoodSet tenantId userId now c r
                else r) = st.map id from
              List.map_congr_left (fun a ha => by simp [hall a ha])]
            exact List.map_id st
          have hfix : applyMoodSet tenantId userId now c row = row := by
            rw [hrow]
            simp [applyMoodSet, hm, hcc, hu, overlay_self, getD_idem]
          have hgoal : (st ++ [row]).map (fun r =>
              if r.id == c.id then applyMoodSet tenantId userId now c r
              else r) = st ++ [row] := by
            rw [List.map_append, hstmap]
            simp [List.map, hrid, hfix]
          have hsecond : applyMoodLogChange tenantId userId now (st ++ [row]) c
              = Except.ok ((st ++ [row]).map (fun r =>
                  if r.id == c.id then applyMoodSet tenantId userId now c r
                  else r)) := by
            unfold applyMoodLogChange
            rw [h2, hcu]
            simp [hru, hnc]
          rw [hsecond, hgoal]
        · unfold applyMoodLogChange
          rw [h2, hcu]
          simp [hru, hnc]

/-- A pre-existing row about to be overwritten by a future-stamped
push. -/
def c8row : MoodLogRow :=
  { id := 61, tenantId := 1, userId := 1, mood := "okay", intensity := none,
    notes := none, clientCreatedAt := 3, createdAt := 4, updatedAt := 5,
    syncedAt := some 5, isDeleted := false }

/-- A push whose client `updatedAt` (1000) lies beyond the server
clock. -/
def c8chg : MoodLogChange :=
  { id := 61, mood := some "bad", clientCreatedAt := some 3,
    updatedAt := some 1000 }

/-- Row 61 after the first application (server clock 10). -/
def c8row10 : MoodLogRow :=
  { id := 61, tenantId := 1, userId := 1, mood := "bad", intensity := none,
    notes := none, clientCreatedAt := 3, createdAt := 4, updatedAt := 10,
    syncedAt := some 10, isDeleted := false }

/-- Row 61 after the retried application (server clock 20). -/
def c8row20 : MoodLogRow :=
  { id := 61, tenantId := 1, userId := 1, mood := "bad", intensity := none,
    notes := none, clientCreatedAt := 3, createdAt := 4, updatedAt := 20,
    syncedAt := some 20, isDeleted := false }

/-- Counterexample to claim C8: pushing the same change twice is not
idempotent on this store. The payload carries `updatedAt = 1000`, ahead
of the server clock, so the first application (clock 10) rewrites the
row with `updatedAt = 10`, and the identical retry (clock 20) wins the
comparison again and rewrites it to `updatedAt = 20`: the store after
P;P differs from the store after P. -/
theorem push_retry_counterexample :
    applyMoodLogChange 1 1 10 [c8row] c8chg = Except.ok [c8row10] ∧
    applyMoodLogChange 1 1 20 [c8row10] c8chg = Except.ok [c8row20] ∧
    c8row10 ≠ c8row20 :=
  ⟨rfl, rfl, by decide⟩

/-- A stored `check_ins` row (table `checkIns` in `db/schema.ts`):
`scheduledFor`, `clientCreatedAt`, `createdAt`, `updatedAt`,
`needsAttention`, `isDeleted` are NOT NULL; the rest are nullable. The
jsonb `responses` column is kept as an opaque string. -/
structure CheckInRow where
  id : Nat
  tenantId : Nat
  userId : Nat
  scheduledFor : Nat
  completedAt : Option Nat
  mood : Option String
  responses : Option String
  needsAttention : Bool
  reviewedBy : Option Nat
  reviewedAt : Option Nat
  reviewNotes : Option String
  clientCreatedAt : Nat
  createdAt : Nat
  updatedAt : Nat
  syncedAt : Option Nat
  isDeleted : Bool
deriving Repr, DecidableEq

/-- A pushed check-in change from `changes.checkIns`: an untyped JSON
object, so every field other than `id` may be absent — including the
review fields `needsAttention`, `reviewedBy`, `reviewedAt`,
`reviewNotes`, which a client of any role can put in the payload. -/
structure CheckInChange where
  id : Nat
  tenantId : Option Nat := none
  userId : Option Nat := none
  scheduledFor : Option Nat := none
  completedAt : Option Nat := none
  mood : Option String := none
  responses : Option String := none
  needsAttention : Option Bool := none
  reviewedBy : Option Nat := none
  reviewedAt : Option Nat := none
  reviewNotes : Option String := none
  clientCreatedAt : Option Nat := none
  createdAt : Option Nat := none
  updatedAt : Option Nat := none
  syncedAt : Option Nat := none
  isDeleted : Option Bool := none
deriving Repr, DecidableEq

/-- `new Date(checkIn.updatedAt || checkIn.clientCreatedAt)` for the
check-in loop. -/
def checkInClientUpdatedAt (c : CheckInChange) : Option Nat :=
  match c.updatedAt with
  | some u => some u
  | none => c.clientCreatedAt

/-- The drizzle `set` object of the check-in update branch:
`{...checkIn, tenantId, userId, syncedAt: new Date(), updatedAt: new Date()}`.
The handler never reads the caller role, so the review fields flow from
the payload into the row for every caller. -/
def applyCheckInSet (tenantId userId now : Nat) (c : CheckInChange)
    (r : CheckInRow) : CheckInRow :=
  { id := c.id,
    tenantId := tenantId,
    userId := userId,
    scheduledFor := c.scheduledFor.getD r.scheduledFor,
    completedAt := overlay c.completedAt r.completedAt,
    mood := overlay c.mood r.mood,
    responses := overlay c.responses r.responses,
    needsAttention := c.needsAttention.getD r.needsAttention,
    reviewedBy := overlay c.reviewedBy r.reviewedBy,
    reviewedAt := overlay c.reviewedAt r.reviewedAt,
    reviewNotes := overlay c.reviewNotes r.reviewNotes,
    clientCreatedAt := c.clientCreatedAt.getD r.clientCreatedAt,
    createdAt := c.createdAt.getD r.createdAt,
    updatedAt := now,
    syncedAt := some now,
    isDeleted := c.isDeleted.getD r.isDeleted }

/-- The check-in insert branch:
`db.insert(checkIns).values({...checkIn, tenantId, userId, syncedAt: new Date()})`.
`scheduledFor` and `clientCreatedAt` are NOT NULL without default;
`needsAttention` defaults to false, `createdAt` and `updatedAt` to
`now()`. No role check gates the review fields. -/
def insertCheckIn (tenantId userId now : Nat) (c : CheckInChange) :
    Except String CheckInRow :=
  match c.scheduledFor, c.clientCreatedAt with
  | some sf, some cc =>
      Except.ok
        { id := c.id,
          tenantId := tenantId,
          userId := userId,
          scheduledFor := sf,
          completedAt := c.completedAt,
          mood := c.mood,
          responses := c.responses,
          needsAttention := c.needsAttention.getD false,
          reviewedBy := c.reviewedBy,
          reviewedAt := c.reviewedAt,
          reviewNotes := c.reviewNotes,
          clientCreatedAt := cc,
          createdAt := c.createdAt.getD now,
          updatedAt := c.updatedAt.getD now,
          syncedAt := some now,
          isDeleted := c.isDeleted.getD false }
  | _, _ => Except.error "null value in NOT NULL column"

/-- One iteration of the check-in push loop of the sync handler. Like
the mood-log loop, the lookup and the update bind only the id, and the
caller role is never consulted. -/
def applyCheckInChange (tenantId userId now : Nat) (st : List CheckInRow)
    (c : CheckInChange) : Except String (List CheckInRow) :=
  match st.find? (fun r => r.id == c.id) with
  | some existing =>
      match checkInClientUpdatedAt c with
      | some d =>
          if existing.updatedAt < d then
            Except.ok (st.map (fun r =>
              if r.id == c.id then applyCheckInSet tenantId userId now c r
              else r))
          else
            Except.ok st
      | none => Except.ok st
  | none =>
      match insertCheckIn tenantId userId now c with
      | Except.ok row => Except.ok (st ++ [row])
      | Except.error e => Except.error e

/-- A check-in change pushed by a crew member that smuggles every
review field in its payload. -/
def c6chg : CheckInChange :=
  { id := 71, scheduledFor := some 500, clientCreatedAt := some 480,
    mood := some "okay", needsAttention := some true, reviewedBy := some 9,
    reviewedAt := some 490, reviewNotes := some "urgent" }

/-- The row the sync handler persists for that crew push. -/
def c6row : CheckInRow :=
  { id := 71, tenantId := 1, userId := 1, scheduledFor := 500,
    completedAt := none, mood := some "okay", responses := none,
    needsAttention := true, reviewedBy := some 9, reviewedAt := some 490,
    reviewNotes := some "urgent", clientCreatedAt := 480, createdAt := 520,
    updatedAt := 520, syncedAt := some 520, isDeleted := false }

/-- Claim C6 (code evaluated at the failing input): the sync check-in
loop performs no role check whatsoever (the handler never reads the
caller role), so a check-in pushed by a crew caller with
`needsAttention`, `reviewedBy`, `reviewedAt` and `reviewNotes` in the
payload is persisted with all four review fields taken from the
payload — they are not silently ignored as the claim states. -/
theorem checkin_review_fields_persisted_for_crew :
    applyCheckInChange 1 1 520 [] c6chg = Except.ok [c6row] ∧
    c6row.needsAttention = true ∧ c6row.reviewedBy = some 9 ∧
    c6row.reviewedAt = some 490 ∧ c6row.reviewNotes = some "urgent" :=
  ⟨rfl, rfl, rfl, rfl, rfl⟩

/-- A stored `resources` row (table `resources` in `db/schema.ts`):
`tenantId` is nullable — NULL marks a global resource. -/
structure ResourceRow where
  id : Nat
  tenantId : Option Nat
  title : String
  description : Option String := none
  type : String
  content : Option String := none
  url : Option String := none
  thumbnailUrl : Option String := none
  category : Option String := none
  tags : Option (List String) := none
  offlineAvailable : Bool := true
  estimatedMinutes : Option Int := none
  isPublished : Bool
  createdAt : Nat
  updatedAt : Nat
deriving Repr, DecidableEq

/-- SQL three-valued equality on a nullable column: comparing with NULL
on either side yields UNKNOWN (`none`), never TRUE. This is what the
generated SQL `tenant_id = $1` does when the bound parameter is null —
drizzle `eq` binds its argument as a parameter and has a separate
`isNull` operator, which the code does not use. -/
def sqlEqNullable (a b : Option Nat) : Option Bool :=
  match a, b with
  | some x, some y => some (x == y)
  | _, _ => none

/-- SQL three-valued AND (Kleene). -/
def sqlAnd (a b : Option Bool) : Option Bool :=
  match a, b with
  | some false, _ => some false
  | _, some false => some false
  | some true, some true => some true
  | _, _ => none

/-- SQL three-valued OR (Kleene). -/
def sqlOr (a b : Option Bool) : Option Bool :=
  match a, b with
  | some true, _ => some true
  | _, some true => some true
  | some false, some false => some false
  | _, _ => none

/-- The where clause of the resources pull of the sync handler:
`and(or(eq(resources.tenantId, tenantId), eq(resources.tenantId, null)),
eq(resources.isPublished, true), gt(resources.updatedAt, syncCutoffDate))`. -/
def resourcesWhere (tenantId cutoff : Nat) (r : ResourceRow) : Option Bool :=
  sqlAnd
    (sqlOr (sqlEqNullable r.tenantId (some tenantId))
      (sqlEqNullable r.tenantId none))
    (sqlAnd (some (r.isPublished == true))
      (some (decide (cutoff < r.updatedAt))))

/-- `findMany` keeps exactly the rows whose where clause evaluates to
TRUE; rows on which it is FALSE or UNKNOWN are filtered out, as in
SQL. -/
def pullResources (tenantId cutoff : Nat) (st : List ResourceRow) :
    List ResourceRow :=
  st.filter (fun r => resourcesWhere tenantId cutoff r == some true)

/-- A published global resource (`tenantId` NULL), recently updated. -/
def c2global : ResourceRow :=
  { id := 81, tenantId := none, title := "Box breathing",
    type := "exercise", isPublished := true, createdAt := 10,
    updatedAt := 100 }

/-- A published tenant-1 resource, recently updated. -/
def c2tenant : ResourceRow :=
  { id := 82, tenantId := some 1, title := "Company wellness guide",
    type := "article", isPublished := true, createdAt := 10,
    updatedAt := 100 }

/-- Claim C2 (code evaluated at the failing input): a sync pull by
tenant 1 with cutoff 0 returns the tenant-1 resource but NOT the
published global resource with NULL `tenantId` and `updatedAt` above
the cutoff: both disjuncts of the tenant filter compare the NULL column
with `=`, which is UNKNOWN in SQL, so the whole clause is UNKNOWN and
the row is dropped — the claim says every such global resource is
included. -/
theorem pull_excludes_global_resources :
    pullResources 1 0 [c2global, c2tenant] = [c2tenant] ∧
    resourcesWhere 1 0 c2global = none :=
  ⟨rfl, rfl⟩

/-- A stored `sync_metadata` cursor row (table `syncMetadata` in
`db/schema.ts`). -/
structure SyncMetadataRow where
  id : Nat
  tenantId : Nat
  userId : Nat
  deviceId : String
  tableName : String
  lastSyncedAt : Nat
  lastRecordId : Option Nat := none
  syncCursor : Option String := none
  createdAt : Nat
  updatedAt : Nat
deriving Repr, DecidableEq

/-- The JSON response of `GET /api/sync/status` together with the HTTP
status code it is sent with. -/
structure StatusResponse where
  status : Nat
  success : Bool
  error : Option String
  data : Option (List SyncMetadataRow)
deriving Repr, DecidableEq

/-- The `GET /api/sync/status` handler: `if (!deviceId)` short-circuits
to a 400 response before the store is queried (a missing query
parameter is undefined and an empty one is the empty string — both
falsy); otherwise it returns the cursor rows filtered by the caller
tenant, user and the device. -/
def syncStatusHandler (tenantId userId : Nat) (deviceId : Option String)
    (st : List SyncMetadataRow) : StatusResponse :=
  if deviceId = none ∨ deviceId = some "" then
    { status := 400, success := false,
      error := some "deviceId is required", data := none }
  else
    { status := 200, success := true, error := none,
      data := some (st.filter (fun meta =>
        meta.tenantId == tenantId && meta.userId == userId &&
          some meta.deviceId == deviceId)) }

/-- Claim C10: a status request without `deviceId` yields HTTP 400 with
body `{success: false, error: "deviceId is required"}` and no data —
and since the result is the same constant for every store contents
`st`, no cursor rows are read. -/
theorem sync_status_requires_deviceId (tenantId userId : Nat)
    (st : List SyncMetadataRow) :
    syncStatusHandler tenantId userId none st =
      { status := 400, success := false,
        error := some "deviceId is required", data := none } :=
  rfl

end SeaBuddy
